import Mathlib

/-!
Verification of the `gargoyle-web-monitor` probe (`src/lib.rs`).

The crate defines one component, `WebAvailability`: a struct holding a target
URL and a `reqwest::blocking::Client`, with three constructors (`new`,
`with_user_agent`, `with_client`) and one operation, `check`, implementing
the `gargoyle::Monitor` trait.

Embedding choices:
- the network call `self.web_client.get(&self.url).send()` is an effect; we
  pass its outcome (`Ok(response)` or `Err(_)`) as an explicit `ReqOutcome`
  argument to `check`;
- `&mut self` is embedded by returning the (possibly updated) probe next to
  the `Action`, so frame properties are statements about the second component;
- the dependency types (`reqwest` client and response, `gargoyle::Action`)
  are modelled with the fields this crate actually touches, plus the fields
  the noninterference claim ranges over (body, headers).
-/

namespace GargoyleWeb

/-- Model of an HTTP response as seen by this crate: `check` reads only
`response.status()`; we also carry the body and headers so that claims about
their irrelevance can quantify over them. The status is the numeric code. -/
structure Response where
  status : Nat
  body : String
  headers : List (String × String)
deriving Repr, DecidableEq

/-- Outcome of `self.web_client.get(&self.url).send()`: either a response was
received, or a transport error occurred. The source discards the error value
(`Err(_)`), so the model carries no detail in the `err` case. -/
inductive ReqOutcome where
  | ok (response : Response)
  | err
deriving Repr, DecidableEq

/-- Embeds `http::StatusCode::is_success`, used by the source as
`response.status().is_success()`: true exactly for codes 200..=299. -/
def isSuccess (code : Nat) : Bool :=
  decide (200 ≤ code) && decide (code < 300)

/-- Rendering of `response.status()` in the `format!` strings of `check`.
The `Display` of a status code puts the numeric code first (followed by a
canonical reason phrase); we model the numeric component, which is the part
the containment claims are about. -/
def statusDisplay (code : Nat) : String :=
  toString code

/-- Model of `gargoyle::Action`, the return type of `Monitor::check`:
`Action::Nothing` or `Action::Notify { diagnostic: Option<String> }`. -/
inductive Action where
  | nothing
  | notify (diagnostic : Option String)
deriving Repr, DecidableEq

/-- Model of `reqwest::blocking::Client` as configured by this crate: the
builder is only ever given a user agent, so we record that configuration.
`none` stands for a caller-built client injected through `with_client`
whose configuration this crate does not inspect. -/
structure Client where
  user_agent : Option String
deriving Repr, DecidableEq

/-- Validity of a user-agent header value, deciding whether
`Client::builder().user_agent(ua).build()` succeeds: every byte of the value
must be horizontal tab or at least 0x20 and not DEL (0x7F); characters at or
above 0x80 encode to bytes at or above 0x80, which are accepted. -/
def validUserAgent (ua : String) : Bool :=
  ua.data.all fun c => c == '\t' || (decide (32 ≤ c.toNat) && decide (c.toNat ≠ 127))

/-- The description carried by the builder error, as rendered by
`format!("{e}")` in the source; the constructors forward it verbatim. -/
def builderErrorMsg : String :=
  "builder error: invalid HTTP header value in user agent"

/-- Embeds `Client::builder().user_agent(ua).build()`: succeeds with a client
recording the user agent when the value is a valid header value, otherwise
fails with the error description. -/
def buildClient (ua : String) : Except String Client :=
  if validUserAgent ua then
    Except.ok { user_agent := some ua }
  else
    Except.error builderErrorMsg

/-- The `WebAvailability` struct: a public `url` and the configured client. -/
structure WebAvailability where
  url : String
  web_client : Client
deriving Repr, DecidableEq

/-- Embeds `WebAvailability::new(url)`: builds a client with the fixed user agent
string `"Gargoyle/0.1"`; forwards the builder error as `Err(format!("{e}"))`,
otherwise returns the probe with the given URL and the built client. -/
def WebAvailability.new (url : String) : Except String WebAvailability :=
  match buildClient "Gargoyle/0.1" with
  | Except.error e => Except.error e
  | Except.ok web_client => Except.ok { url := url, web_client := web_client }

/-- Embeds `WebAvailability::with_user_agent(url, user_agent)`: builds a client with
the supplied user agent; forwards the builder error, otherwise returns the
probe with the given URL and the built client. -/
def WebAvailability.with_user_agent (url : String) (user_agent : String) :
    Except String WebAvailability :=
  match buildClient user_agent with
  | Except.error e => Except.error e
  | Except.ok web_client => Except.ok { url := url, web_client := web_client }

/-- Embeds `WebAvailability::with_client(url, web_client)`: packs the given URL and
pre-built client into a probe; the Rust signature returns `Self`, not
`Result`, so there is no failure case. -/
def WebAvailability.with_client (url : String) (web_client : Client) :
    WebAvailability :=
  { url := url, web_client := web_client }

/-- Embeds `impl Monitor for WebAvailability: fn check`, with the outcome of the `send()`
call passed explicitly and the post-call probe state returned alongside the
action (embedding of `&mut self`). Mirrors the source: on a response, branch
on `status().is_success()`; on `Ok` success return `Action::Nothing`; on a
non-success status return `Action::Notify` with the diagnostic
`format!("Failed to get {} - {}", self.url, response.status())`; on a
transport error return `Action::Notify` with
`format!("Failed to connect to {}", self.url)`. -/
def WebAvailability.check (self : WebAvailability) (outcome : ReqOutcome) :
    Action × WebAvailability :=
  match outcome with
  | ReqOutcome.ok response =>
    if isSuccess response.status then
      (Action.nothing, self)
    else
      (Action.notify (some ("Failed to get " ++ self.url ++ " - " ++
        statusDisplay response.status)), self)
  | ReqOutcome.err =>
    (Action.notify (some ("Failed to connect to " ++ self.url)), self)

/-- Substring containment, stated on the underlying character lists. -/
def containsSub (needle hay : String) : Prop :=
  ∃ s t, hay.data = s ++ needle.data ++ t

/-- Two request outcomes agree on everything `check` is allowed to inspect:
same kind, and for responses the same numeric status code (body and headers
are free to differ). -/
def sameStatusOutcome : ReqOutcome → ReqOutcome → Prop
  | ReqOutcome.ok r1, ReqOutcome.ok r2 => r1.status = r2.status
  | ReqOutcome.err, ReqOutcome.err => True
  | _, _ => False

theorem string_data_append (a b : String) : (a ++ b).data = a.data ++ b.data :=
  rfl

theorem take_len_append (l1 l2 : List Char) : (l1 ++ l2).take l1.length = l1 := by
  simp

/-- C1: `check` returns `Action::Nothing` (Healthy) on a received response
exactly when the numeric status code is in 200..=299; no status outside that
range yields `Nothing`. -/
theorem check_healthy_iff_success (self : WebAvailability) (r : Response) :
    (self.check (ReqOutcome.ok r)).1 = Action.nothing ↔
      (200 ≤ r.status ∧ r.status ≤ 299) := by
  simp only [WebAvailability.check]
  by_cases h : isSuccess r.status = true
  · rw [if_pos h]
    simp only [isSuccess, Bool.and_eq_true, decide_eq_true_eq] at h
    constructor
    · intro _
      exact ⟨h.1, Nat.lt_succ_iff.mp h.2⟩
    · intro _
      rfl
  · rw [if_neg h]
    simp only [isSuccess, Bool.and_eq_true, decide_eq_true_eq] at h
    constructor
    · intro hc
      exact absurd hc (by simp)
    · intro hr
      exact absurd ⟨hr.1, Nat.lt_succ_iff.mpr hr.2⟩ h

/-- C4: `check` never fails: for every outcome of the underlying request the
return value is a normal classified `Action`, either `Nothing` or `Notify`. -/
theorem check_total_classified (self : WebAvailability) (o : ReqOutcome) :
    (self.check o).1 = Action.nothing ∨
      ∃ d, (self.check o).1 = Action.notify d := by
  cases o with
  | ok r =>
    by_cases h : isSuccess r.status = true
    · left
      simp [WebAvailability.check, h]
    · right
      exact ⟨some ("Failed to get " ++ self.url ++ " - " ++ statusDisplay r.status),
        by simp [WebAvailability.check, h]⟩
  | err =>
    right
    exact ⟨_, rfl⟩

/-- C6: `with_client` always succeeds: for every URL and pre-built client it
returns (with no failure case, its return type being the probe itself) a
fully-initialized probe storing exactly that URL and that client. -/
theorem with_client_total (url : String) (c : Client) :
    (WebAvailability.with_client url c).url = url ∧
      (WebAvailability.with_client url c).web_client = c :=
  ⟨rfl, rfl⟩

/-- C7: `check` mutates no probe state: the probe after the call (second
component of the embedding of `&mut self`) equals the probe before it, for
every outcome and hence for every classification returned. -/
theorem check_no_mutation (self : WebAvailability) (o : ReqOutcome) :
    (self.check o).2 = self := by
  cases o with
  | ok r =>
    by_cases h : isSuccess r.status = true <;> simp [WebAvailability.check, h]
  | err => rfl

/-- C9: `new url` is equivalent to `with_user_agent url "Gargoyle/0.1"`: both
produce the same probe (same URL, same client configuration) or the same
construction error. -/
theorem new_eq_with_default_user_agent (url : String) :
    WebAvailability.new url = WebAvailability.with_user_agent url "Gargoyle/0.1" :=
  rfl

theorem take_of_length_eq (l1 l2 : List Char) (n : Nat) (h : l1.length = n) :
    (l1 ++ l2).take n = l1 := by
  subst h
  simp

theorem connect_diag_ne_status_diag (u v : String) (c : Nat) :
    ("Failed to connect to " ++ u) ≠ "Failed to get " ++ v ++ " - " ++ statusDisplay c := by
  intro heq
  have hd := congrArg String.data heq
  rw [string_data_append, string_data_append, string_data_append,
    string_data_append] at hd
  have hsplit : ("Failed to connect to " : String).data =
      ("Failed to conn" : String).data ++ ("ect to " : String).data := by decide
  rw [hsplit, List.append_assoc, List.append_assoc, List.append_assoc] at hd
  have h14 := congrArg (List.take 14) hd
  rw [take_of_length_eq ("Failed to conn" : String).data _ 14 (by decide),
    take_of_length_eq ("Failed to get " : String).data _ 14 (by decide)] at h14
  exact absurd h14 (by decide)

/-- C5: for every url and user-agent string, `new` and `with_user_agent`
return exactly the result of the client build mapped into a probe: the error
of `buildClient` forwarded verbatim when the client cannot be constructed,
and a fully-initialized probe (the given url plus the built client) when it
can. Both are total Lean functions, so neither panics. -/
theorem constructors_forward_builder_result (url ua : String) :
    WebAvailability.with_user_agent url ua =
      Except.map (fun c => { url := url, web_client := c }) (buildClient ua) ∧
    WebAvailability.new url =
      Except.map (fun c => { url := url, web_client := c })
        (buildClient "Gargoyle/0.1") := by
  constructor
  · cases h : buildClient ua with
    | error e => simp [WebAvailability.with_user_agent, h, Except.map]
    | ok c => simp [WebAvailability.with_user_agent, h, Except.map]
  · cases h : buildClient "Gargoyle/0.1" with
    | error e => simp [WebAvailability.new, h, Except.map]
    | ok c => simp [WebAvailability.new, h, Except.map]

/-- C2: on a received response whose status is outside 200..=299, `check`
returns `Action::Notify` with a diagnostic that contains both the stored URL
and the numeric status code of the response. -/
theorem check_bad_status_notify (self : WebAvailability) (r : Response)
    (h : isSuccess r.status = false) :
    ∃ d, (self.check (ReqOutcome.ok r)).1 = Action.notify (some d) ∧
      containsSub self.url d ∧ containsSub (toString r.status) d := by
  refine ⟨"Failed to get " ++ self.url ++ " - " ++ statusDisplay r.status, ?_, ?_, ?_⟩
  · simp only [WebAvailability.check]
    rw [if_neg (by simp [h])]
  · exact ⟨("Failed to get " : String).data,
      (" - " ++ statusDisplay r.status).data,
      by simp [string_data_append, List.append_assoc]⟩
  · exact ⟨("Failed to get " ++ self.url ++ " - " : String).data, [],
      by simp [string_data_append, statusDisplay, List.append_assoc]⟩

/-- C2 witness at status 404 and url `http://example.com`. -/
theorem check_bad_status_notify_witness :
    isSuccess 404 = false ∧
      ∃ d, ((WebAvailability.with_client "http://example.com"
          { user_agent := none }).check
            (ReqOutcome.ok { status := 404, body := "", headers := [] })).1 =
          Action.notify (some d) ∧
        containsSub "http://example.com" d ∧ containsSub (toString 404) d :=
  ⟨by decide, check_bad_status_notify
    (WebAvailability.with_client "http://example.com" { user_agent := none })
    { status := 404, body := "", headers := [] } (by decide)⟩

/-- C3: on a transport error, `check` returns `Action::Notify` with the
diagnostic `"Failed to connect to " ++ url`: it names the URL, indicates a
connection failure (contains `"connect"`), is built from the URL alone with
no status-code component, and differs from the bad-status diagnostic of every
URL and every status code. -/
theorem check_transport_error_notify (self : WebAvailability) :
    (self.check ReqOutcome.err).1 =
        Action.notify (some ("Failed to connect to " ++ self.url)) ∧
      containsSub self.url ("Failed to connect to " ++ self.url) ∧
      containsSub "connect" ("Failed to connect to " ++ self.url) ∧
      ∀ (v : String) (c : Nat),
        ("Failed to connect to " ++ self.url) ≠
          "Failed to get " ++ v ++ " - " ++ statusDisplay c := by
  refine ⟨rfl, ?_, ?_, fun v c => connect_diag_ne_status_diag self.url v c⟩
  · exact ⟨("Failed to connect to " : String).data, [],
      by simp [string_data_append]⟩
  · refine ⟨("Failed to " : String).data,
      (" to " : String).data ++ self.url.data, ?_⟩
    have hsplit : ("Failed to connect to " : String).data =
        ("Failed to " : String).data ++ ("connect" : String).data ++
          (" to " : String).data := by decide
    rw [string_data_append, hsplit]
    simp [List.append_assoc]

/-- C3 witness at url `http://example.com`. -/
theorem check_transport_error_notify_witness :
    ((WebAvailability.with_client "http://example.com"
        { user_agent := none }).check ReqOutcome.err).1 =
        Action.notify (some ("Failed to connect to " ++ "http://example.com")) ∧
      containsSub "http://example.com"
        ("Failed to connect to " ++ "http://example.com") ∧
      containsSub "connect" ("Failed to connect to " ++ "http://example.com") ∧
      ∀ (v : String) (c : Nat),
        ("Failed to connect to " ++ "http://example.com") ≠
          "Failed to get " ++ v ++ " - " ++ statusDisplay c :=
  check_transport_error_notify
    (WebAvailability.with_client "http://example.com" { user_agent := none })

/-- C8: two-run noninterference in body and headers: two request outcomes of
the same kind that agree on the numeric status code produce the same action
(with the same diagnostic) and the same post-call probe. -/
theorem check_status_noninterference (self : WebAvailability)
    (o1 o2 : ReqOutcome) (h : sameStatusOutcome o1 o2) :
    self.check o1 = self.check o2 := by
  cases o1 with
  | ok r1 =>
    cases o2 with
    | ok r2 =>
      have hs : r1.status = r2.status := h
      simp only [WebAvailability.check, hs]
    | err => exact absurd h (by simp [sameStatusOutcome])
  | err =>
    cases o2 with
    | ok r2 => exact absurd h (by simp [sameStatusOutcome])
    | err => rfl

/-- C8 witness: two 500 responses with different bodies and headers. -/
theorem check_status_noninterference_witness :
    sameStatusOutcome
        (ReqOutcome.ok { status := 500, body := "a", headers := [] })
        (ReqOutcome.ok { status := 500, body := "b", headers := [("k", "v")] }) ∧
      (WebAvailability.with_client "http://example.com"
          { user_agent := none }).check
          (ReqOutcome.ok { status := 500, body := "a", headers := [] }) =
        (WebAvailability.with_client "http://example.com"
            { user_agent := none }).check
          (ReqOutcome.ok { status := 500, body := "b", headers := [("k", "v")] }) :=
  ⟨rfl, check_status_noninterference
    (WebAvailability.with_client "http://example.com" { user_agent := none })
    (ReqOutcome.ok { status := 500, body := "a", headers := [] })
    (ReqOutcome.ok { status := 500, body := "b", headers := [("k", "v")] }) rfl⟩

theorem diag_get_ne_empty (u s : String) :
    ("Failed to get " ++ u ++ " - " ++ s) ≠ "" := by
  intro h
  have hd : ("Failed to get " ++ u ++ " - " ++ s).data = ("" : String).data :=
    congrArg String.data h
  simp only [string_data_append, List.append_assoc] at hd
  exact absurd (List.append_eq_nil.mp hd).1 (by decide)

theorem diag_connect_ne_empty (u : String) :
    ("Failed to connect to " ++ u) ≠ "" := by
  intro h
  have hd : ("Failed to connect to " ++ u).data = ("" : String).data :=
    congrArg String.data h
  simp only [string_data_append] at hd
  exact absurd (List.append_eq_nil.mp hd).1 (by decide)

/-- C10: every `Action::Notify` returned by `check` carries a present,
non-empty diagnostic: the `diagnostic` field is `some s` with `s` non-empty,
never `none`. -/
theorem check_notify_nonempty_diagnostic (self : WebAvailability)
    (o : ReqOutcome) (d : Option String)
    (h : (self.check o).1 = Action.notify d) :
    ∃ s, d = some s ∧ s ≠ "" := by
  cases o with
  | ok r =>
    by_cases hs : isSuccess r.status = true
    · simp [WebAvailability.check, hs] at h
    · simp only [WebAvailability.check] at h
      rw [if_neg hs] at h
      refine ⟨"Failed to get " ++ self.url ++ " - " ++ statusDisplay r.status,
        ?_, diag_get_ne_empty self.url (statusDisplay r.status)⟩
      exact (Action.notify.injEq _ _).mp h.symm ▸ rfl
  | err =>
    refine ⟨"Failed to connect to " ++ self.url, ?_,
      diag_connect_ne_empty self.url⟩
    have h2 : Action.notify (some ("Failed to connect to " ++ self.url)) =
        Action.notify d := h
    exact ((Action.notify.injEq _ _).mp h2).symm

/-- C10 witness at a transport error. -/
theorem check_notify_nonempty_diagnostic_witness :
    ((WebAvailability.with_client "http://example.com"
        { user_agent := none }).check ReqOutcome.err).1 =
        Action.notify (some ("Failed to connect to " ++ "http://example.com")) ∧
      ∃ s, (some ("Failed to connect to " ++ "http://example.com") :
          Option String) = some s ∧ s ≠ "" :=
  ⟨rfl, check_notify_nonempty_diagnostic
    (WebAvailability.with_client "http://example.com" { user_agent := none })
    ReqOutcome.err
    (some ("Failed to connect to " ++ "http://example.com")) rfl⟩

end GargoyleWeb
